import Mathlib

/-!
Verification of the FutureCraft aerospace CAD frontend.

Shallow embedding of:
- `calculateAtmosphere` and `mpsToKmph` (src/frontend/src/lib/utils/physics.ts),
- the reactive Mach-number computation, the mission-profile sliders and the
  `optimizeDesign` routine (src/frontend/src/routes/+page.svelte).

Numbers are modelled as real numbers; JavaScript `Math.sqrt` becomes
`Real.sqrt` and `Math.floor` becomes the integer floor.
-/

namespace FutureCraft

/-- Altitude zone labels produced by `calculateAtmosphere`
(the source uses the strings LOW ALTITUDE, MEDIUM ALTITUDE,
HIGH ALTITUDE, STRATOSPHERE). -/
inductive Zone where
  | low
  | medium
  | high
  | stratosphere
  deriving DecidableEq

/-- Temperature (K): `tempK = 288.15`, reassigned to
`288.15 - 0.0065 * altitudeMeters` when `altitudeMeters <= 11000`,
to `216.65` otherwise (physics.ts lines 5-14). -/
noncomputable def calcTempK (altitudeMeters : ℝ) : ℝ :=
  if altitudeMeters ≤ 11000 then 288.15 - 0.0065 * altitudeMeters else 216.65

/-- `const speedOfSound = Math.sqrt(1.4 * 287.05 * tempK)` (physics.ts line 18). -/
noncomputable def calcSpeedOfSound (altitudeMeters : ℝ) : ℝ :=
  Real.sqrt (1.4 * 287.05 * calcTempK altitudeMeters)

/-- Zone ladder: `zone = LOW; if (alt > 5000) MEDIUM; if (alt > 10000) HIGH;
if (alt > 18000) STRATOSPHERE` — sequential overwrites (physics.ts lines 20-23). -/
noncomputable def calcZone (altitudeMeters : ℝ) : Zone :=
  let z := Zone.low
  let z := if 5000 < altitudeMeters then Zone.medium else z
  let z := if 10000 < altitudeMeters then Zone.high else z
  let z := if 18000 < altitudeMeters then Zone.stratosphere else z
  z

/-- The record returned by `calculateAtmosphere` (physics.ts lines 25-29). -/
structure Atmosphere where
  tempK : ℝ
  speedOfSound : ℝ
  zone : Zone

/-- `calculateAtmosphere(altitudeMeters)` (physics.ts lines 1-30). -/
noncomputable def calculateAtmosphere (altitudeMeters : ℝ) : Atmosphere :=
  { tempK := calcTempK altitudeMeters
    speedOfSound := calcSpeedOfSound altitudeMeters
    zone := calcZone altitudeMeters }

/-- `mpsToKmph(mps) = mps * 3.6` (physics.ts lines 32-34). -/
noncomputable def mpsToKmph (mps : ℝ) : ℝ := mps * 3.6

/-- Reactive Mach number: `machNumber = missionProfile.speed /
atmosphere.speedOfSound` (+page.svelte lines 126-127). -/
noncomputable def machNumber (speed altitudeMeters : ℝ) : ℝ :=
  speed / (calculateAtmosphere altitudeMeters).speedOfSound

/-- `const targetSF = 1.55` in `optimizeDesign` (+page.svelte line 149). -/
noncomputable def targetSF : ℝ := 1.55

/-- `let newThickness = currentThickness * Math.sqrt(ratio)` where
`ratio = targetSF / currentSF` (+page.svelte lines 155, 163). -/
noncomputable def newThicknessRaw (currentSF currentThickness : ℝ) : ℝ :=
  currentThickness * Real.sqrt (targetSF / currentSF)

/-- `if (newThickness > 25) newThickness = 25` (+page.svelte line 166). -/
noncomputable def newThicknessCapped (currentSF currentThickness : ℝ) : ℝ :=
  if newThicknessRaw currentSF currentThickness > 25 then 25
  else newThicknessRaw currentSF currentThickness

/-- `if (newThickness < currentThickness) newThickness = currentThickness + 2`
(+page.svelte line 167). -/
noncomputable def newThicknessBumped (currentSF currentThickness : ℝ) : ℝ :=
  if newThicknessCapped currentSF currentThickness < currentThickness then
    currentThickness + 2
  else newThicknessCapped currentSF currentThickness

/-- `newThickness = Math.floor(newThickness)` (+page.svelte line 170): the
thickness finally applied by one invocation of `optimizeDesign`. -/
noncomputable def newThickness (currentSF currentThickness : ℝ) : ℤ :=
  ⌊newThicknessBumped currentSF currentThickness⌋

/-- `simResult.status`, PASS or FAIL. -/
inductive Status where
  | PASS
  | FAIL
  deriving DecidableEq

/-- The fields of the simulation result that `optimizeDesign` reads
(+page.svelte lines 145-177). -/
structure SimResult where
  status : Status
  safety_factor : ℝ
  max_stress : ℝ
  lift_force_kn : ℝ

/-- The wing-model parameters read and written by `optimizeDesign`
(only `thickness` is changed; the rest is spread unchanged). -/
structure WingParams where
  thickness : ℝ

/-- The page state touched by `optimizeDesign`: the local `simResult`
variable and the wings model in the aircraft store. -/
structure PageState where
  simResult : Option SimResult
  wingsModel : Option WingParams

/-- One invocation of `optimizeDesign` (+page.svelte lines 144-218):
returns immediately unless `simResult` is a FAIL and a wings model exists;
otherwise computes the new thickness, and when the `updateParameters` API
call succeeds (`apiOk`), stores the updated model and sets
`simResult = null` (line 206); on API failure the state is unchanged. -/
noncomputable def optimizeDesign (st : PageState) (apiOk : Bool) : PageState :=
  match st.simResult, st.wingsModel with
  | some r, some w =>
    match r.status with
    | Status.PASS => st
    | Status.FAIL =>
      if apiOk then
        { simResult := none
          wingsModel := some ⟨(newThickness r.safety_factor w.thickness : ℝ)⟩ }
      else st
  | _, _ => st

/-- Mission profile fields bound to the two sliders (+page.svelte
lines 337-344 and 369-377). -/
structure MissionProfile where
  altitude : ℝ
  speed : ℝ

/-- Altitude slider attributes: `min="500" max="25000"` (+page.svelte 339-340). -/
noncomputable def altSliderMin : ℝ := 500

/-- Altitude slider attribute `max="25000"`. -/
noncomputable def altSliderMax : ℝ := 25000

/-- Speed slider attribute `min="50"` (+page.svelte 372). -/
noncomputable def speedSliderMin : ℝ := 50

/-- Speed slider attribute `max="1000"` (+page.svelte 373). -/
noncomputable def speedSliderMax : ℝ := 1000

/-- The documented MissionProfile ranges: altitude in [0, 25000] m,
speed in [50, 1000] m/s. -/
def inDocumentedRange (p : MissionProfile) : Prop :=
  0 ≤ p.altitude ∧ p.altitude ≤ 25000 ∧ 50 ≤ p.speed ∧ p.speed ≤ 1000

/-- Mission profiles reachable through the mission-control UI: the initial
store value followed by any sequence of slider edits. The `init` case is
modelled from the spec: the aircraft store that holds the initial
`missionProfile` value is not among the sources, and §3 of the spec states
its fields lie in the documented ranges. Each slider edit replaces one
field with a value between that slider's `min` and `max` attributes. -/
inductive UIReachable : MissionProfile → Prop where
  | init (p : MissionProfile) : inDocumentedRange p → UIReachable p
  | setAltitude (p : MissionProfile) (a : ℝ) : UIReachable p →
      altSliderMin ≤ a → a ≤ altSliderMax → UIReachable ⟨a, p.speed⟩
  | setSpeed (p : MissionProfile) (v : ℝ) : UIReachable p →
      speedSliderMin ≤ v → v ≤ speedSliderMax → UIReachable ⟨p.altitude, v⟩

/-! ### Auxiliary lemmas about the optimization step -/

/-- On any FAIL safety factor (0 < s < 1.5) the thickness scale
`targetSF / s` exceeds 1. -/
theorem one_lt_scale {s : ℝ} (hs0 : 0 < s) (hs : s < 1.5) : 1 < targetSF / s := by
  rw [one_lt_div hs0]
  show s < 1.55
  linarith

/-- Hence its square root exceeds 1 as well. -/
theorem one_lt_sqrt_scale {s : ℝ} (hs0 : 0 < s) (hs : s < 1.5) :
    1 < Real.sqrt (targetSF / s) :=
  (Real.lt_sqrt zero_le_one).mpr (by simpa using one_lt_scale hs0 hs)

/-- On a FAIL safety factor and positive thickness, the pre-cap value
strictly exceeds the current thickness. -/
theorem lt_newThicknessRaw {s t : ℝ} (hs0 : 0 < s) (hs : s < 1.5) (ht : 0 < t) :
    t < newThicknessRaw s t := by
  calc t = t * 1 := (mul_one t).symm
    _ < t * Real.sqrt (targetSF / s) :=
        mul_lt_mul_of_pos_left (one_lt_sqrt_scale hs0 hs) ht
    _ = newThicknessRaw s t := rfl

/-- Weak version for nonnegative thickness. -/
theorem le_newThicknessRaw {s t : ℝ} (hs0 : 0 < s) (hs : s < 1.5) (ht : 0 ≤ t) :
    t ≤ newThicknessRaw s t := by
  rcases eq_or_lt_of_le ht with h | h
  · simp [newThicknessRaw, ← h]
  · exact (lt_newThicknessRaw hs0 hs h).le

/-- The cap leaves the value unchanged when it is at most 25. -/
theorem capped_of_le {s t : ℝ} (h : newThicknessRaw s t ≤ 25) :
    newThicknessCapped s t = newThicknessRaw s t := by
  unfold newThicknessCapped
  rw [if_neg (not_lt.mpr h)]

/-- The cap replaces the value by 25 when it exceeds 25. -/
theorem capped_of_gt {s t : ℝ} (h : newThicknessRaw s t > 25) :
    newThicknessCapped s t = 25 := by
  unfold newThicknessCapped
  rw [if_pos h]

/-! ### Claim theorems -/

/-- C1: on a FAIL result with safety factor 0 < s < 1.5 and positive current
thickness, when the explicit clamps do not fire (the pre-cap value is at most
25), `optimizeDesign` computes the scale 1.55 / s and the new thickness is
the current thickness times the square root of that scale, rounded down to
the integer grid. -/
theorem optimize_update_rule (s t : ℝ) (hs0 : 0 < s) (hs : s < 1.5)
    (ht : 0 < t) (hcap : newThicknessRaw s t ≤ 25) :
    targetSF = 1.55 ∧ newThickness s t = ⌊t * Real.sqrt (1.55 / s)⌋ := by
  refine ⟨rfl, ?_⟩
  have hraw : t < newThicknessRaw s t := lt_newThicknessRaw hs0 hs ht
  have hc : newThicknessCapped s t = newThicknessRaw s t := capped_of_le hcap
  have hb : newThicknessBumped s t = newThicknessRaw s t := by
    unfold newThicknessBumped
    rw [hc, if_neg (not_lt.mpr hraw.le)]
  unfold newThickness
  rw [hb]
  rfl

/-- Witness for C1 at s = 1, t = 10. -/
theorem optimize_update_rule_witness :
    targetSF = 1.55 ∧ newThickness 1 10 = ⌊(10 : ℝ) * Real.sqrt (1.55 / 1)⌋ :=
  optimize_update_rule 1 10 (by norm_num) (by norm_num) (by norm_num)
    (by
      have hs : Real.sqrt (targetSF / 1) ≤ 2.5 :=
        (Real.sqrt_le_left (by norm_num)).mpr (by norm_num [targetSF])
      have h0 : (0 : ℝ) ≤ Real.sqrt (targetSF / 1) := Real.sqrt_nonneg _
      unfold newThicknessRaw
      nlinarith [hs, h0])

/-- C10: under the guard of `optimizeDesign` (FAIL result, safety factor
strictly between 0 and 1.5) and for current thickness between 0 and 25, the
condition of the minimum-increment branch is false (the capped value is never
strictly below the current thickness), and for positive thickness the pre-cap
value strictly exceeds the current thickness. -/
theorem bump_branch_unreachable (s t : ℝ) (hs0 : 0 < s) (hs : s < 1.5)
    (ht0 : 0 ≤ t) (ht : t ≤ 25) :
    ¬ (newThicknessCapped s t < t) ∧ (0 < t → t < newThicknessRaw s t) := by
  refine ⟨?_, fun h => lt_newThicknessRaw hs0 hs h⟩
  unfold newThicknessCapped
  split_ifs with h
  · exact not_lt.mpr ht
  · exact not_lt.mpr (le_newThicknessRaw hs0 hs ht0)

/-- Witness for C10 at s = 1, t = 10. -/
theorem bump_branch_unreachable_witness :
    ¬ (newThicknessCapped 1 10 < 10) ∧
      ((0 : ℝ) < 10 → (10 : ℝ) < newThicknessRaw 1 10) :=
  bump_branch_unreachable 1 10 (by norm_num) (by norm_num) (by norm_num)
    (by norm_num)

/-- C2 counterexample: with FAIL safety factor 1 and current thickness 30 the
cap fires first, the minimum-increment branch then raises the value to 32,
so the returned thickness exceeds 25. -/
theorem cap_counterexample :
    0 < (1 : ℝ) ∧ (1 : ℝ) < 1.5 ∧ 25 < newThickness 1 30 := by
  refine ⟨one_pos, by norm_num, ?_⟩
  have h1 : (5 / 6 : ℝ) < Real.sqrt (targetSF / 1) :=
    (Real.lt_sqrt (by norm_num)).mpr (by norm_num [targetSF])
  have hr : newThicknessRaw 1 30 > 25 := by
    unfold newThicknessRaw
    nlinarith [h1]
  have hc : newThicknessCapped 1 30 = 25 := capped_of_gt hr
  have hb : newThicknessBumped 1 30 = 30 + 2 := by
    unfold newThicknessBumped
    rw [hc, if_pos (by norm_num)]
  unfold newThickness
  rw [hb]
  norm_num

/-- C2 amended: for a FAIL safety factor (0 < s < 1.5) and a current
thickness within its bounds (between 0 and the documented maximum 25), the
thickness returned by the optimization step is never greater than 25. -/
theorem newThickness_le_25 (s t : ℝ) (hs0 : 0 < s) (hs : s < 1.5)
    (ht0 : 0 ≤ t) (ht : t ≤ 25) : newThickness s t ≤ 25 := by
  by_cases hr : newThicknessRaw s t > 25
  · have hc : newThicknessCapped s t = 25 := capped_of_gt hr
    have hb : newThicknessBumped s t = 25 := by
      unfold newThicknessBumped
      rw [hc, if_neg (not_lt.mpr ht)]
    unfold newThickness
    rw [hb]
    norm_num
  · push_neg at hr
    have hc : newThicknessCapped s t = newThicknessRaw s t := capped_of_le hr
    have hb : newThicknessBumped s t = newThicknessRaw s t := by
      unfold newThicknessBumped
      rw [hc, if_neg (not_lt.mpr (le_newThicknessRaw hs0 hs ht0))]
    unfold newThickness
    rw [hb]
    calc ⌊newThicknessRaw s t⌋ ≤ ⌊(25 : ℝ)⌋ := Int.floor_mono hr
      _ = 25 := by norm_num

/-- Witness for the amended C2 at s = 1, t = 10. -/
theorem newThickness_le_25_witness : newThickness 1 10 ≤ 25 :=
  newThickness_le_25 1 10 (by norm_num) (by norm_num) (by norm_num) (by norm_num)

/-- C3 counterexample: starting from a page state holding a FAIL simulation
result, one successful invocation of `optimizeDesign` leaves `simResult`
equal to `none` — the last attempted result is erased by applying the new
parameter, not preserved. -/
theorem optimize_preserves_counterexample :
    (optimizeDesign ⟨some ⟨Status.FAIL, 1, 200, 350⟩, some ⟨10⟩⟩ true).simResult
      = none ∧
    (⟨some ⟨Status.FAIL, 1, 200, 350⟩, some ⟨10⟩⟩ : PageState).simResult ≠ none := by
  exact ⟨rfl, fun h => Option.noConfusion h⟩

/-- C3 amended: whenever `optimizeDesign` runs past its guard (a FAIL
simulation result and a present wings model) and the parameter update
succeeds, it clears the stored simulation result (`simResult = null`,
requiring a re-run) rather than preserving it. -/
theorem optimize_clears_result (st : PageState) (r : SimResult) (w : WingParams)
    (h1 : st.simResult = some r) (h2 : r.status = Status.FAIL)
    (h3 : st.wingsModel = some w) :
    (optimizeDesign st true).simResult = none := by
  obtain ⟨sr, wm⟩ := st
  obtain ⟨rs, sf, ms, lf⟩ := r
  cases h1
  cases h3
  cases h2
  rfl

/-- Witness for the amended C3. -/
theorem optimize_clears_result_witness :
    (optimizeDesign ⟨some ⟨Status.FAIL, 1.2, 300, 400⟩, some ⟨12⟩⟩ true).simResult
      = none :=
  optimize_clears_result _ ⟨Status.FAIL, 1.2, 300, 400⟩ ⟨12⟩ rfl rfl rfl

/-- C4: on a FAIL safety factor (0 < s < 1.5) and an in-bounds grid
thickness (an integer n with 0 < n ≤ 25), the thickness returned by the
optimization step is at least the current thickness: optimize never
decreases thickness. -/
theorem optimize_never_decreases (s : ℝ) (n : ℤ) (hs0 : 0 < s) (hs : s < 1.5)
    (hn0 : 0 < n) (hn : n ≤ 25) : n ≤ newThickness s (n : ℝ) := by
  have hn0' : (0 : ℝ) < (n : ℝ) := by exact_mod_cast hn0
  have hraw : (n : ℝ) < newThicknessRaw s (n : ℝ) :=
    lt_newThicknessRaw hs0 hs hn0'
  by_cases hr : newThicknessRaw s (n : ℝ) > 25
  · have hc : newThicknessCapped s (n : ℝ) = 25 := capped_of_gt hr
    have h25 : ¬ ((25 : ℝ) < (n : ℝ)) := not_lt.mpr (by exact_mod_cast hn)
    have hb : newThicknessBumped s (n : ℝ) = 25 := by
      unfold newThicknessBumped
      rw [hc, if_neg h25]
    unfold newThickness
    rw [hb]
    have : ⌊(25 : ℝ)⌋ = 25 := by norm_num
    omega
  · push_neg at hr
    have hc : newThicknessCapped s (n : ℝ) = newThicknessRaw s (n : ℝ) :=
      capped_of_le hr
    have hb : newThicknessBumped s (n : ℝ) = newThicknessRaw s (n : ℝ) := by
      unfold newThicknessBumped
      rw [hc, if_neg (not_lt.mpr hraw.le)]
    unfold newThickness
    rw [hb]
    exact Int.le_floor.mpr hraw.le

/-- Witness for C4 at s = 1, n = 10. -/
theorem optimize_never_decreases_witness : (10 : ℤ) ≤ newThickness 1 (10 : ℝ) :=
  optimize_never_decreases 1 10 (by norm_num) (by norm_num) (by norm_num)
    (by norm_num)

/-- C5 counterexample: with FAIL safety factor 1.45 and current thickness 24
(strictly below 25), the computed value 24 * sqrt(1.55 / 1.45) lies strictly
between 24 and 25, so no clamp fires and the floor returns 24 — the current
thickness, not a strictly greater one: no forward progress. -/
theorem optimize_progress_counterexample :
    0 < (1.45 : ℝ) ∧ (1.45 : ℝ) < 1.5 ∧ (24 : ℝ) < 25 ∧
      newThickness 1.45 24 = 24 := by
  refine ⟨by norm_num, by norm_num, by norm_num, ?_⟩
  have h1 : Real.sqrt (targetSF / 1.45) < 25 / 24 :=
    (Real.sqrt_lt' (by norm_num)).mpr (by norm_num [targetSF])
  have h0 : (1 : ℝ) ≤ Real.sqrt (targetSF / 1.45) :=
    (Real.le_sqrt' one_pos).mpr (by norm_num [targetSF])
  have hraw_lo : (24 : ℝ) ≤ newThicknessRaw 1.45 24 := by
    unfold newThicknessRaw
    nlinarith [h0]
  have hraw_hi : newThicknessRaw 1.45 24 < 25 := by
    unfold newThicknessRaw
    nlinarith [h1]
  have hc : newThicknessCapped 1.45 24 = newThicknessRaw 1.45 24 :=
    capped_of_le hraw_hi.le
  have hb : newThicknessBumped 1.45 24 = newThicknessRaw 1.45 24 := by
    unfold newThicknessBumped
    rw [hc, if_neg (not_lt.mpr hraw_lo)]
  unfold newThickness
  rw [hb]
  rw [Int.floor_eq_iff]
  constructor
  · exact_mod_cast hraw_lo
  · push_cast
    linarith

/-- C5 amended: on a FAIL safety factor and an in-bounds grid thickness
n < 25, the minimum increment fires only when the pre-rounding value is
strictly below the current thickness (which cannot happen here), so the
returned thickness is strictly greater than the current one exactly when
the computed value `n * sqrt(1.55 / s)` reaches the next grid point n + 1;
otherwise the step stalls at n. -/
theorem optimize_progress_iff (s : ℝ) (n : ℤ) (hs0 : 0 < s) (hs : s < 1.5)
    (hn0 : 0 < n) (hn : n < 25) :
    n < newThickness s (n : ℝ) ↔ (n : ℝ) + 1 ≤ newThicknessRaw s (n : ℝ) := by
  have hn0' : (0 : ℝ) < (n : ℝ) := by exact_mod_cast hn0
  have hraw : (n : ℝ) < newThicknessRaw s (n : ℝ) :=
    lt_newThicknessRaw hs0 hs hn0'
  constructor
  · intro h
    by_contra hcon
    push_neg at hcon
    have hr25 : newThicknessRaw s (n : ℝ) ≤ 25 := by
      have h1 : (n : ℝ) + 1 ≤ 25 := by
        have : n + 1 ≤ 25 := hn
        exact_mod_cast this
      linarith
    have hc : newThicknessCapped s (n : ℝ) = newThicknessRaw s (n : ℝ) :=
      capped_of_le hr25
    have hb : newThicknessBumped s (n : ℝ) = newThicknessRaw s (n : ℝ) := by
      unfold newThicknessBumped
      rw [hc, if_neg (not_lt.mpr hraw.le)]
    have hfix : newThickness s (n : ℝ) = n := by
      unfold newThickness
      rw [hb, Int.floor_eq_iff]
      exact ⟨hraw.le, by linarith⟩
    omega
  · intro h
    by_cases hr : newThicknessRaw s (n : ℝ) > 25
    · have hc : newThicknessCapped s (n : ℝ) = 25 := capped_of_gt hr
      have h25 : ¬ ((25 : ℝ) < (n : ℝ)) := by
        push_neg
        exact_mod_cast hn.le
      have hb : newThicknessBumped s (n : ℝ) = 25 := by
        unfold newThicknessBumped
        rw [hc, if_neg h25]
      have hfix : newThickness s (n : ℝ) = 25 := by
        unfold newThickness
        rw [hb]
        norm_num
      omega
    · push_neg at hr
      have hc : newThicknessCapped s (n : ℝ) = newThicknessRaw s (n : ℝ) :=
        capped_of_le hr
      have hb : newThicknessBumped s (n : ℝ) = newThicknessRaw s (n : ℝ) := by
        unfold newThicknessBumped
        rw [hc, if_neg (not_lt.mpr hraw.le)]
      have hfl : n + 1 ≤ ⌊newThicknessRaw s (n : ℝ)⌋ :=
        Int.le_floor.mpr (by push_cast; linarith)
      unfold newThickness
      rw [hb]
      omega

/-- Witness for the amended C5 at s = 1, n = 10. -/
theorem optimize_progress_iff_witness :
    (10 : ℤ) < newThickness 1 (10 : ℝ) ↔
      (10 : ℝ) + 1 ≤ newThicknessRaw 1 (10 : ℝ) := by
  have h := optimize_progress_iff 1 10 (by norm_num) (by norm_num) (by norm_num)
    (by norm_num)
  exact_mod_cast h

/-- C6: for every altitude, the atmosphere function returns temperature
288.15 − 0.0065·altitude when altitude ≤ 11000 m, temperature 216.65 when
altitude > 11000 m, and a speed of sound equal to
sqrt(1.4 · 287.05 · temperature). -/
theorem atmosphere_temperature_model (alt : ℝ) :
    (alt ≤ 11000 → (calculateAtmosphere alt).tempK = 288.15 - 0.0065 * alt) ∧
    (11000 < alt → (calculateAtmosphere alt).tempK = 216.65) ∧
    (calculateAtmosphere alt).speedOfSound =
      Real.sqrt (1.4 * 287.05 * (calculateAtmosphere alt).tempK) := by
  refine ⟨fun h => ?_, fun h => ?_, rfl⟩
  · show calcTempK alt = _
    unfold calcTempK
    rw [if_pos h]
  · show calcTempK alt = _
    unfold calcTempK
    rw [if_neg (not_le.mpr h)]

/-- Witness for C6 at altitudes 1000 m and 12000 m. -/
theorem atmosphere_temperature_model_witness :
    (calculateAtmosphere 1000).tempK = 288.15 - 0.0065 * 1000 ∧
    (calculateAtmosphere 12000).tempK = 216.65 :=
  ⟨(atmosphere_temperature_model 1000).1 (by norm_num),
   (atmosphere_temperature_model 12000).2.1 (by norm_num)⟩

/-- C7 counterexample: the zone thresholds are strict, so at exactly 5000 m
the zone is LOW (not MEDIUM as the claim states), at 10000 m it is MEDIUM
(not HIGH) and at 18000 m it is HIGH (not STRATOSPHERE): each threshold
altitude receives the lower classification. -/
theorem zone_boundary_counterexample :
    (calculateAtmosphere 5000).zone = Zone.low ∧
    (calculateAtmosphere 10000).zone = Zone.medium ∧
    (calculateAtmosphere 18000).zone = Zone.high ∧
    Zone.low ≠ Zone.medium := by
  refine ⟨?_, ?_, ?_, by decide⟩ <;>
    · show calcZone _ = _
      unfold calcZone
      norm_num

/-- C7 amended: the zone is LOW when altitude ≤ 5000, MEDIUM when
5000 < altitude ≤ 10000, HIGH when 10000 < altitude ≤ 18000, and
STRATOSPHERE when altitude > 18000 — at exactly 5000, 10000 and 18000 m
the zone is the lower classification of each threshold pair. -/
theorem zone_ladder (alt : ℝ) :
    (calculateAtmosphere alt).zone =
      (if alt ≤ 5000 then Zone.low
       else if alt ≤ 10000 then Zone.medium
       else if alt ≤ 18000 then Zone.high
       else Zone.stratosphere) := by
  show calcZone alt = _
  unfold calcZone
  split_ifs <;> first | rfl | linarith

/-- C9: for every altitude the temperature returned by the atmosphere
function is at least 216.65 K (hence strictly positive), the speed of sound
is a well-defined strictly positive real, and the Mach-number computation
speed / speedOfSound never divides by zero (multiplying it back by the
speed of sound recovers the speed exactly). -/
theorem atmosphere_positive (speed alt : ℝ) :
    216.65 ≤ (calculateAtmosphere alt).tempK ∧
    0 < (calculateAtmosphere alt).speedOfSound ∧
    machNumber speed alt * (calculateAtmosphere alt).speedOfSound = speed := by
  have ht : 216.65 ≤ calcTempK alt := by
    unfold calcTempK
    split_ifs with h
    · linarith
    · exact le_refl _
  have hpos : 0 < calcSpeedOfSound alt := by
    unfold calcSpeedOfSound
    apply Real.sqrt_pos.mpr
    nlinarith [ht]
  exact ⟨ht, hpos, div_mul_cancel₀ speed hpos.ne'⟩

/-- C8: every mission profile reachable through the mission-control UI
(the stored initial profile followed by any sequence of slider edits within
the sliders' min/max attributes) has altitude within [0, 25000] m and speed
within [50, 1000] m/s. -/
theorem mission_profile_in_range (p : MissionProfile) (h : UIReachable p) :
    inDocumentedRange p := by
  induction h with
  | init p hp => exact hp
  | setAltitude p a hp h1 h2 ih =>
    have h1' : (500 : ℝ) ≤ a := h1
    have h2' : a ≤ 25000 := h2
    exact ⟨by linarith, h2', ih.2.2.1, ih.2.2.2⟩
  | setSpeed p v hp h1 h2 ih =>
    have h1' : (50 : ℝ) ≤ v := h1
    have h2' : v ≤ 1000 := h2
    exact ⟨ih.1, ih.2.1, h1', h2'⟩

/-- Witness for C8: the profile altitude 10000 m, speed 250 m/s is reachable
and in range. -/
theorem mission_profile_in_range_witness :
    inDocumentedRange ⟨10000, 250⟩ :=
  mission_profile_in_range ⟨10000, 250⟩
    (UIReachable.init ⟨10000, 250⟩
      ⟨by norm_num, by norm_num, by norm_num, by norm_num⟩)

end FutureCraft
